import Mathlib

/-!
Shallow embedding of `src/Analytics.js` (class `AdvancedAnalytics`) from the
AICGLLM repository, together with proofs checking the natural-language
specification against it.

Modelling conventions:
* JS numbers are modelled as `ℚ` (all computations the claims touch are exact
  ratios of small integers, where IEEE doubles and rationals agree).
* JS strings are Lean `String`s, processed as `List Char`; `toLowerCase` is
  modelled by `Char.toLower` (ASCII case mapping, which covers every literal
  appearing in the code and the claims) and `\s` by `Char.isWhitespace`.
* JS `Set` is modelled by `List.dedup` (size, membership); `Array.push` by
  appending at the end of a list; the mutating methods of the class by
  explicit state passing `Metrics → ... → Metrics × _`.
-/

namespace AICGLLM

/-- Characters matched by the sentence-splitting character class `[.!?]`. -/
def isSentenceSep (c : Char) : Bool := c = '.' || c = '!' || c = '?'

/-- Word characters of the JS regex class `\w` = `[A-Za-z0-9_]`. -/
def wordChar (c : Char) : Bool := c.isAlphanum || c = '_'

/-- Accumulator loop for `splitRuns`: `acc` holds finished segments
(reversed), `cur` the current segment (reversed), `inSep` whether the
previous character was a separator (so that a whole run of separators
produces a single split point). -/
def splitRunsGo (p : Char → Bool) : List (List Char) → List Char → Bool → List Char → List (List Char)
  | acc, cur, _, [] => (cur.reverse :: acc).reverse
  | acc, cur, inSep, c :: cs =>
    if p c then
      if inSep then splitRunsGo p acc cur true cs
      else splitRunsGo p (cur.reverse :: acc) [] true cs
    else splitRunsGo p acc (c :: cur) false cs

/-- JS `String.prototype.split` on a one-or-more character-class regex such as
`/[.!?]+/` or `/\s+/`: the string is cut at every maximal run of characters
satisfying `p`; empty segments appear at the boundaries exactly as in JS
(`".a.".split(/[.]+/) = ["", "a", ""]`, `"a..b".split(/[.]+/) = ["a", "b"]`,
`"".split(/[.]+/) = [""]`). -/
def splitRuns (p : Char → Bool) (l : List Char) : List (List Char) :=
  splitRunsGo p [] [] false l

/-- JS `String.prototype.trim` (leading and trailing whitespace removed). -/
def trimChars (l : List Char) : List Char :=
  ((l.dropWhile Char.isWhitespace).reverse.dropWhile Char.isWhitespace).reverse

/-- The character list of `s.toLowerCase()`. -/
def lowerData (s : String) : List Char := s.data.map Char.toLower

/-- JS `Array.prototype.join(' ')`. -/
def joinSpace : List (List Char) → List Char
  | [] => []
  | [x] => x
  | x :: xs => x ++ ' ' :: joinSpace xs

/-- The maximal runs of word characters of `l`: exactly the substrings that a
`\b(w1|w2|...)\b` regex can match when every alternative consists of word
characters only. -/
def wordTokens (l : List Char) : List (List Char) :=
  (splitRuns (fun c => !wordChar c) l).filter (fun t => !t.isEmpty)

/-- JS `String.prototype.includes`: `needle` occurs contiguously in
`haystack`. -/
def containsInfix (haystack needle : List Char) : Bool :=
  decide (needle <:+: haystack)

/-- A retrieved context chunk as consumed by the analytics code
(`c.text`, `c.source`, `c.similarity`). -/
structure Chunk where
  text : String
  source : String
  similarity : ℚ

/-- An entry of the `sources` array of a query record (`s.source`). -/
structure SourceRef where
  source : String
  similarity : ℚ

/-- The argument object of `trackQuery`. -/
structure QueryRecord where
  query : String
  response : String
  sources : List SourceRef
  contextChunks : List Chunk
  ttftMs : ℚ
  totalTimeMs : ℚ
  tokensGenerated : ℚ
  topSimilarity : ℚ
  avgSimilarity : ℚ

/-- The `queryTypes` counter object of the metrics state. -/
structure QueryTypes where
  question : ℕ
  summary : ℕ
  comparison : ℕ
  generation : ℕ
  other : ℕ
deriving DecidableEq

/-- `this.metrics` as initialised by the `AdvancedAnalytics` constructor.
`vocabularyUnique`, `memoryUsage`, `sessionDurations` and `followUpRates`
are declared by the constructor but never written by `trackQuery`. -/
structure Metrics where
  responseLengths : List ℚ
  vocabularyUnique : List String
  repetitionScores : List ℚ
  diversityDistinct1 : List ℚ
  diversityDistinct2 : List ℚ
  contextUtilization : List ℚ
  answerGrounding : List ℚ
  citationCoverage : List ℚ
  retrievalPrecision : List ℚ
  totalGenTime : List ℚ
  throughput : List ℚ
  memoryUsage : List ℚ
  queryComplexity : List ℚ
  sessionDurations : List ℚ
  followUpRates : List ℚ
  queryTypes : QueryTypes
  hallucinationScores : List ℚ
  completenessScores : List ℚ
  sourceDiversity : List ℚ

/-- The state built by `new AdvancedAnalytics()`. -/
def initialMetrics : Metrics :=
  { responseLengths := []
    vocabularyUnique := []
    repetitionScores := []
    diversityDistinct1 := []
    diversityDistinct2 := []
    contextUtilization := []
    answerGrounding := []
    citationCoverage := []
    retrievalPrecision := []
    totalGenTime := []
    throughput := []
    memoryUsage := []
    queryComplexity := []
    sessionDurations := []
    followUpRates := []
    queryTypes := ⟨0, 0, 0, 0, 0⟩
    hallucinationScores := []
    completenessScores := []
    sourceDiversity := [] }

/-- Return value of `calculateDiversity`. -/
structure Diversity where
  distinct1 : ℚ
  distinct2 : ℚ
  uniqueTokens : ℕ

/-- `calculateDiversity(text)`: Distinct-1 / Distinct-2 lexical diversity. -/
def calculateDiversity (text : String) : Diversity :=
  let tokens := splitRuns Char.isWhitespace (lowerData text)
  let unigrams := tokens.dedup
  let bigrams := ((tokens.zip tokens.tail).map (fun p => p.1 ++ '_' :: p.2)).dedup
  { distinct1 := if tokens.length > 0 then (unigrams.length : ℚ) / tokens.length else 0
    distinct2 := if tokens.length > 1 then (bigrams.length : ℚ) / ((tokens.length : ℚ) - 1) else 0
    uniqueTokens := unigrams.length }

/-- The `forEach` loop of `calculateRepetition`: `seen` is the `Set` of
normalized sentences already visited (`Set.has` is membership, `Set.add` is
insert-if-absent), the result the final `repetitionCount`. -/
def repetitionGo : List (List Char) → List (List Char) → ℕ
  | _, [] => 0
  | seen, sentence :: rest =>
    let normalized := (trimChars sentence).map Char.toLower
    (if normalized ∈ seen then 1 else 0) + repetitionGo (seen.insert normalized) rest

/-- `calculateRepetition(text)`. -/
def calculateRepetition (text : String) : ℚ :=
  let sentences := (splitRuns isSentenceSep text.data).filter
    (fun s => decide ((trimChars s).length > 0))
  if sentences.length < 2 then 0
  else (repetitionGo [] sentences : ℚ) / sentences.length

/-- `calculateContextUtilization(response, contextChunks)`. -/
def calculateContextUtilization (response : String) (contextChunks : List Chunk) : ℚ :=
  if contextChunks.length = 0 then 0
  else
    let contextText := joinSpace (contextChunks.map (fun c => lowerData c.text))
    let responseWords := (splitRuns Char.isWhitespace (lowerData response)).dedup
    let contextWords := (splitRuns Char.isWhitespace contextText).dedup
    let usedWords := responseWords.countP
      (fun word => contextWords.contains word && decide (word.length > 3))
    if contextWords.length > 0 then (usedWords : ℚ) / contextWords.length else 0

/-- The per-sentence test of `calculateGrounding`: more than 30% of the
sentence's content words (length > 4) occur in the context text. When the
sentence has no content word the JS quotient is `NaN` and the comparison is
false, hence the explicit non-emptiness conjunct. -/
def groundedSentence (contextText : List Char) (sentence : List Char) : Bool :=
  let words := (splitRuns Char.isWhitespace (sentence.map Char.toLower)).filter
    (fun w => decide (w.length > 4))
  let matched := words.filter (fun w => containsInfix contextText w)
  decide (words.length ≠ 0 ∧ (matched.length : ℚ) / (words.length : ℚ) > 3 / 10)

/-- `calculateGrounding(response, contextChunks)`. -/
def calculateGrounding (response : String) (contextChunks : List Chunk) : ℚ :=
  if contextChunks.length = 0 then 0
  else
    let responseSentences := (splitRuns isSentenceSep response.data).filter
      (fun s => decide ((trimChars s).length > 20))
    if responseSentences.length = 0 then 0
    else
      let contextText := joinSpace (contextChunks.map (fun c => lowerData c.text))
      let groundedSentences := responseSentences.foldl
        (fun n s => if groundedSentence contextText s then n + 1 else n) 0
      (groundedSentences : ℚ) / responseSentences.length

/-- `calculateCitationCoverage(sources, contextChunks)`. -/
def calculateCitationCoverage (sources : List SourceRef) (contextChunks : List Chunk) : ℚ :=
  if contextChunks.length = 0 then 0
  else
    ((sources.map SourceRef.source).dedup.length : ℚ) /
      ((contextChunks.map Chunk.source).dedup.length : ℚ)

/-- `calculateRetrievalPrecision(contextChunks, topSimilarity, avgSimilarity)`.
The two similarity parameters are declared by the JS function but never read. -/
def calculateRetrievalPrecision (contextChunks : List Chunk)
    (topSimilarity avgSimilarity : ℚ) : ℚ :=
  if contextChunks.length = 0 then 0
  else
    let highQualityChunks := (contextChunks.filter
      (fun c => decide (c.similarity > 1 / 2))).length
    (highQualityChunks : ℚ) / contextChunks.length

/-- Keywords of the `question` pattern `\b(what|who|when|where|why|how|which)\b`. -/
def questionWords : List String := ["what", "who", "when", "where", "why", "how", "which"]

/-- Keywords of the `summary` pattern. -/
def summaryWords : List String := ["summarize", "summary", "overview", "brief"]

/-- Keywords of the `comparison` pattern. -/
def comparisonWords : List String := ["compare", "contrast", "difference", "versus", "vs"]

/-- Keywords of the `generation` pattern. -/
def generationWords : List String := ["generate", "create", "write", "compose"]

/-- Whether one of the `\b...\b` alternatives in `ws` matches the lower-cased
query: since every keyword consists of word characters, the regex matches
exactly when a maximal word-character run of the query equals the keyword. -/
def matchesAny (query : String) (ws : List String) : Bool :=
  ws.any (fun w => (wordTokens (lowerData query)).contains w.data)

/-- `classifyQuery(query)`. -/
def classifyQuery (query : String) : String :=
  if matchesAny query questionWords then "question"
  else if matchesAny query summaryWords then "summary"
  else if matchesAny query comparisonWords then "comparison"
  else if matchesAny query generationWords then "generation"
  else "other"

/-- Return value of `calculateQueryComplexity`. -/
structure QueryComplexity where
  wordCount : ℕ
  sentenceCount : ℕ
  avgWordsPerSentence : ℚ
  hasQuestion : Bool
  complexity : ℚ

/-- `calculateQueryComplexity(query)`; `hasClauses` is
`query.split(/,|;/).length - 1`, i.e. the number of `,`/`;` occurrences. -/
def calculateQueryComplexity (query : String) : QueryComplexity :=
  let words := splitRuns Char.isWhitespace query.data
  let sentences := (splitRuns isSentenceSep query.data).filter
    (fun s => decide ((trimChars s).length > 0))
  let hasQuestionMark := query.data.contains '?'
  let hasClauses := (query.data.splitOnP (fun c => c = ',' || c = ';')).length - 1
  { wordCount := words.length
    sentenceCount := sentences.length
    avgWordsPerSentence :=
      if sentences.length > 0 then (words.length : ℚ) / sentences.length else 0
    hasQuestion := hasQuestionMark
    complexity := min 10 ((words.length : ℚ) / 5 + hasClauses +
      (if hasQuestionMark then 1 else 0)) }

/-- The per-sentence test of `detectHallucination`: fewer than 20% of the
sentence's content words (length > 4) occur in the context text. When the
sentence has no content word the JS quotient is `NaN` and the comparison is
false, hence the explicit non-emptiness conjunct. -/
def hallucinatedSentence (contextText : List Char) (sentence : List Char) : Bool :=
  let words := (splitRuns Char.isWhitespace (sentence.map Char.toLower)).filter
    (fun w => decide (w.length > 4))
  let matched := words.filter (fun w => containsInfix contextText w)
  decide (words.length ≠ 0 ∧ (matched.length : ℚ) / (words.length : ℚ) < 1 / 5)

/-- `detectHallucination(response, contextChunks)`. -/
def detectHallucination (response : String) (contextChunks : List Chunk) : ℚ :=
  if contextChunks.length = 0 then 1
  else
    let contextText := joinSpace (contextChunks.map (fun c => lowerData c.text))
    let responseSentences := (splitRuns isSentenceSep response.data).filter
      (fun s => decide ((trimChars s).length > 20))
    let possibleHallucinations := responseSentences.foldl
      (fun n s => if hallucinatedSentence contextText s then n + 1 else n) 0
    if responseSentences.length > 0
    then (possibleHallucinations : ℚ) / responseSentences.length
    else 0

/-- `calculateCompleteness(query, response)`. -/
def calculateCompleteness (query response : String) : ℚ :=
  let stoplist : List (List Char) :=
    ["what", "when", "where", "which", "could", "would", "should"].map String.data
  let queryWords := (splitRuns Char.isWhitespace (lowerData query)).filter
    (fun w => decide (w.length > 4) && !stoplist.contains w)
  if queryWords.length = 0 then 1
  else
    let responseLower := lowerData response
    let addressedWords := queryWords.filter (fun w => containsInfix responseLower w)
    (addressedWords.length : ℚ) / queryWords.length

/-- `calculateSourceDiversity(sources)`. -/
def calculateSourceDiversity (sources : List SourceRef) : ℚ :=
  if sources.length = 0 then 0
  else ((sources.map SourceRef.source).dedup.length : ℚ) / sources.length

/-- The object returned by `trackQuery`. -/
structure QueryMetrics where
  responseLength : ℕ
  diversity : Diversity
  repetition : ℚ
  contextUtilization : ℚ
  answerGrounding : ℚ
  citationCoverage : ℚ
  retrievalPrecision : ℚ
  throughput : ℚ
  queryComplexity : QueryComplexity
  queryType : String
  hallucinationScore : ℚ
  completeness : ℚ
  sourceDiversity : ℚ

/-- `this.metrics.queryTypes[queryType]++`: `queryType` is one of the five
strings produced by `classifyQuery`. -/
def bumpQueryType (qt : QueryTypes) (t : String) : QueryTypes :=
  if t = "question" then { qt with question := qt.question + 1 }
  else if t = "summary" then { qt with summary := qt.summary + 1 }
  else if t = "comparison" then { qt with comparison := qt.comparison + 1 }
  else if t = "generation" then { qt with generation := qt.generation + 1 }
  else { qt with other := qt.other + 1 }

/-- `trackQuery(data)`: computes every per-query metric, appends it to the
corresponding sequence of the metrics state and returns the per-query
metrics object. -/
def trackQuery (m : Metrics) (data : QueryRecord) : Metrics × QueryMetrics :=
  let responseLength := data.response.length
  let diversity := calculateDiversity data.response
  let repetition := calculateRepetition data.response
  let contextUtil := calculateContextUtilization data.response data.contextChunks
  let grounding := calculateGrounding data.response data.contextChunks
  let citationCov := calculateCitationCoverage data.sources data.contextChunks
  let retrievalPrec :=
    calculateRetrievalPrecision data.contextChunks data.topSimilarity data.avgSimilarity
  let throughput :=
    if data.totalTimeMs > 0 then data.tokensGenerated / data.totalTimeMs * 1000 else 0
  let queryComp := calculateQueryComplexity data.query
  let queryType := classifyQuery data.query
  let hallucinationScore := detectHallucination data.response data.contextChunks
  let completeness := calculateCompleteness data.query data.response
  let sourceDiversity := calculateSourceDiversity data.sources
  ({ m with
      responseLengths := m.responseLengths ++ [(responseLength : ℚ)]
      diversityDistinct1 := m.diversityDistinct1 ++ [diversity.distinct1]
      diversityDistinct2 := m.diversityDistinct2 ++ [diversity.distinct2]
      repetitionScores := m.repetitionScores ++ [repetition]
      contextUtilization := m.contextUtilization ++ [contextUtil]
      answerGrounding := m.answerGrounding ++ [grounding]
      citationCoverage := m.citationCoverage ++ [citationCov]
      retrievalPrecision := m.retrievalPrecision ++ [retrievalPrec]
      totalGenTime := m.totalGenTime ++ [data.totalTimeMs]
      throughput := m.throughput ++ [throughput]
      queryComplexity := m.queryComplexity ++ [queryComp.complexity]
      queryTypes := bumpQueryType m.queryTypes queryType
      hallucinationScores := m.hallucinationScores ++ [hallucinationScore]
      completenessScores := m.completenessScores ++ [completeness]
      sourceDiversity := m.sourceDiversity ++ [sourceDiversity] },
   { responseLength := responseLength
     diversity := diversity
     repetition := repetition
     contextUtilization := contextUtil
     answerGrounding := grounding
     citationCoverage := citationCov
     retrievalPrecision := retrievalPrec
     throughput := throughput
     queryComplexity := queryComp
     queryType := queryType
     hallucinationScore := hallucinationScore
     completeness := completeness
     sourceDiversity := sourceDiversity })

/-- Iterated `trackQuery` (state part only): tracking a whole list of query
records in order. -/
def trackAll (m : Metrics) (l : List QueryRecord) : Metrics :=
  l.foldl (fun acc d => (trackQuery acc d).1) m

/-- The local `avg` helper of `getAggregatedStats`:
`arr.length > 0 ? arr.reduce((a, b) => a + b, 0) / arr.length : 0`. -/
def avg (l : List ℚ) : ℚ :=
  if l.length > 0 then l.sum / l.length else 0

/-- Ascending numeric sort, as `[...arr].sort((a, b) => a - b)`. -/
def sortAsc (l : List ℚ) : List ℚ := l.insertionSort (· ≤ ·)

/-- The local `median` helper of `getAggregatedStats`. -/
def median (l : List ℚ) : ℚ :=
  if l.length = 0 then 0
  else
    let sorted := sortAsc l
    let mid := sorted.length / 2
    if sorted.length % 2 = 0 then (sorted.getD (mid - 1) 0 + sorted.getD mid 0) / 2
    else sorted.getD mid 0

/-- The local `percentile` helper of `getAggregatedStats`
(nearest-rank: `idx = ceil(p/100 * n) - 1`, clamped to `≥ 0`). -/
def percentile (l : List ℚ) (p : ℚ) : ℚ :=
  if l.length = 0 then 0
  else
    let sorted := sortAsc l
    let idx : ℤ := ⌈p / 100 * (sorted.length : ℚ)⌉ - 1
    sorted.getD (max 0 idx).toNat 0

/-- `Math.min(...arr, 0)`. -/
def minWithZero (l : List ℚ) : ℚ := l.foldr min 0

/-- `Math.max(...arr, 0)`. -/
def maxWithZero (l : List ℚ) : ℚ := l.foldr max 0

/-- The `generation` block of the aggregated statistics. -/
structure GenerationStats where
  avgResponseLength : ℚ
  medianResponseLength : ℚ
  minResponseLength : ℚ
  maxResponseLength : ℚ
  avgDistinct1 : ℚ
  avgDistinct2 : ℚ
  avgRepetition : ℚ
deriving DecidableEq

/-- The `rag` block of the aggregated statistics. -/
structure RagStats where
  avgContextUtilization : ℚ
  avgAnswerGrounding : ℚ
  avgCitationCoverage : ℚ
  avgRetrievalPrecision : ℚ
deriving DecidableEq

/-- The `performance` block of the aggregated statistics. -/
structure PerformanceStats where
  avgTotalGenTime : ℚ
  medianTotalGenTime : ℚ
  p95TotalGenTime : ℚ
  avgThroughput : ℚ
deriving DecidableEq

/-- The `engagement` block of the aggregated statistics. -/
structure EngagementStats where
  avgQueryComplexity : ℚ
  queryTypeDistribution : QueryTypes
deriving DecidableEq

/-- The `quality` block of the aggregated statistics. -/
structure QualityStats where
  avgHallucinationScore : ℚ
  avgCompleteness : ℚ
  avgSourceDiversity : ℚ
deriving DecidableEq

/-- The object returned by `getAggregatedStats`. -/
structure AggregatedStats where
  generation : GenerationStats
  rag : RagStats
  performance : PerformanceStats
  engagement : EngagementStats
  quality : QualityStats
deriving DecidableEq

/-- `getAggregatedStats()`. -/
def getAggregatedStats (m : Metrics) : AggregatedStats :=
  { generation :=
      { avgResponseLength := avg m.responseLengths
        medianResponseLength := median m.responseLengths
        minResponseLength := minWithZero m.responseLengths
        maxResponseLength := maxWithZero m.responseLengths
        avgDistinct1 := avg m.diversityDistinct1
        avgDistinct2 := avg m.diversityDistinct2
        avgRepetition := avg m.repetitionScores }
    rag :=
      { avgContextUtilization := avg m.contextUtilization
        avgAnswerGrounding := avg m.answerGrounding
        avgCitationCoverage := avg m.citationCoverage
        avgRetrievalPrecision := avg m.retrievalPrecision }
    performance :=
      { avgTotalGenTime := avg m.totalGenTime
        medianTotalGenTime := median m.totalGenTime
        p95TotalGenTime := percentile m.totalGenTime 95
        avgThroughput := avg m.throughput }
    engagement :=
      { avgQueryComplexity := avg m.queryComplexity
        queryTypeDistribution := m.queryTypes }
    quality :=
      { avgHallucinationScore := avg m.hallucinationScores
        avgCompleteness := avg m.completenessScores
        avgSourceDiversity := avg m.sourceDiversity } }

/-- Sum of the five `queryTypes` counters. -/
def sumQueryTypes (qt : QueryTypes) : ℕ :=
  qt.question + qt.summary + qt.comparison + qt.generation + qt.other

/-!
Spec-side definitions. These two definitions follow the wording of the
specification (and of claims C3 and C5), not the control flow of the code;
the corresponding theorems compare them with the code-derived definitions
above.
-/

/-- Spec wording (hallucination): the sentence's rate of words longer than 4
characters that appear as substrings of the context text is below 20%,
i.e. strictly fewer matches than one fifth of the content words. A sentence
with no content word has no rate, which does not count as being below 20%. -/
def sentenceLowMatchRate (contextText : List Char) (sentence : List Char) : Bool :=
  let contentWords := (splitRuns Char.isWhitespace (sentence.map Char.toLower)).filter
    (fun w => decide (w.length > 4))
  decide (5 * (contentWords.filter (containsInfix contextText)).length < contentWords.length)

/-- Spec wording (hallucination score): the fraction of response sentences
(split on `.`, `!`, `?`; trimmed length > 20) whose content-word match rate
against the lower-cased concatenated context text is below 20%; `1` when no
context chunk was supplied. An empty sentence list yields the fraction
`0 / 0 = 0` of `ℚ`. -/
def hallucinationScoreSpec (response : String) (contextChunks : List Chunk) : ℚ :=
  if contextChunks.length = 0 then 1
  else
    let contextText := joinSpace (contextChunks.map (fun c => lowerData c.text))
    let sentences := (splitRuns isSentenceSep response.data).filter
      (fun s => decide ((trimChars s).length > 20))
    (sentences.countP (sentenceLowMatchRate contextText) : ℚ) / sentences.length

/-- Spec wording (repetition): count the sentences whose form already
occurred among the earlier sentences of the same response; `earlier` is the
list of sentences preceding the current one. -/
def countRepeatedSpec : List (List Char) → List (List Char) → ℕ
  | _, [] => 0
  | earlier, s :: rest =>
    (if s ∈ earlier then 1 else 0) + countRepeatedSpec (earlier ++ [s]) rest

/-- Spec wording (repetition score): the fraction of response sentences
(split on `.`, `!`, `?`; trimmed; non-empty) whose trimmed lower-cased form
already occurred among the earlier sentences; `0` when there are fewer than
2 such sentences. -/
def repetitionScoreSpec (text : String) : ℚ :=
  let sentences := ((splitRuns isSentenceSep text.data).filter
    (fun s => decide ((trimChars s).length > 0))).map
    (fun s => (trimChars s).map Char.toLower)
  if sentences.length < 2 then 0
  else (countRepeatedSpec [] sentences : ℚ) / sentences.length

/-- A query record with an empty `contextChunks` sequence, used to witness
claim C1. -/
def noContextRecord : QueryRecord :=
  { query := "What is chunking"
    response := "A reply about chunking methods and windows."
    sources := []
    contextChunks := []
    ttftMs := 10
    totalTimeMs := 100
    tokensGenerated := 50
    topSimilarity := 0
    avgSimilarity := 0 }

/-- A high-similarity chunk, used to witness claim C4. -/
def preciseChunk : Chunk :=
  { text := "alpha beta", source := "paperA", similarity := 9 / 10 }

/-- Claim C1: for every query record whose `contextChunks` is empty,
`trackQuery` returns `contextUtilization = 0`, `answerGrounding = 0`,
`citationCoverage = 0` and `hallucinationScore = 1`, regardless of the
query, response and sources fields. -/
theorem claim_C1 : ∀ (m : Metrics) (d : QueryRecord), d.contextChunks = [] →
    (trackQuery m d).2.contextUtilization = 0 ∧
    (trackQuery m d).2.answerGrounding = 0 ∧
    (trackQuery m d).2.citationCoverage = 0 ∧
    (trackQuery m d).2.hallucinationScore = 1 := by
  intro m d h
  refine ⟨?_, ?_, ?_, ?_⟩ <;>
    simp [trackQuery, calculateContextUtilization, calculateGrounding,
      calculateCitationCoverage, detectHallucination, h]

/-- Witness for C1 at a concrete query record with empty context. -/
theorem claim_C1_witness :
    (trackQuery initialMetrics noContextRecord).2.contextUtilization = 0 ∧
    (trackQuery initialMetrics noContextRecord).2.answerGrounding = 0 ∧
    (trackQuery initialMetrics noContextRecord).2.citationCoverage = 0 ∧
    (trackQuery initialMetrics noContextRecord).2.hallucinationScore = 1 :=
  claim_C1 initialMetrics noContextRecord rfl

/-- Claim C2: on a freshly constructed analytics instance (no tracked
queries) every mean, median and percentile of `getAggregatedStats` equals 0. -/
theorem claim_C2 :
    (getAggregatedStats initialMetrics).generation.avgResponseLength = 0 ∧
    (getAggregatedStats initialMetrics).generation.medianResponseLength = 0 ∧
    (getAggregatedStats initialMetrics).generation.avgDistinct1 = 0 ∧
    (getAggregatedStats initialMetrics).generation.avgDistinct2 = 0 ∧
    (getAggregatedStats initialMetrics).generation.avgRepetition = 0 ∧
    (getAggregatedStats initialMetrics).rag.avgContextUtilization = 0 ∧
    (getAggregatedStats initialMetrics).rag.avgAnswerGrounding = 0 ∧
    (getAggregatedStats initialMetrics).rag.avgCitationCoverage = 0 ∧
    (getAggregatedStats initialMetrics).rag.avgRetrievalPrecision = 0 ∧
    (getAggregatedStats initialMetrics).performance.avgTotalGenTime = 0 ∧
    (getAggregatedStats initialMetrics).performance.medianTotalGenTime = 0 ∧
    (getAggregatedStats initialMetrics).performance.p95TotalGenTime = 0 ∧
    (getAggregatedStats initialMetrics).performance.avgThroughput = 0 ∧
    (getAggregatedStats initialMetrics).engagement.avgQueryComplexity = 0 ∧
    (getAggregatedStats initialMetrics).quality.avgHallucinationScore = 0 ∧
    (getAggregatedStats initialMetrics).quality.avgCompleteness = 0 ∧
    (getAggregatedStats initialMetrics).quality.avgSourceDiversity = 0 := by
  decide

/-- Claim C4: `calculateRetrievalPrecision` does not depend on its
`topSimilarity` and `avgSimilarity` arguments; on a non-empty chunk list it
returns the fraction of chunks whose similarity exceeds 0.5, and on an empty
one it returns 0. -/
theorem claim_C4 :
    (∀ (cc : List Chunk) (t1 a1 t2 a2 : ℚ),
      calculateRetrievalPrecision cc t1 a1 = calculateRetrievalPrecision cc t2 a2) ∧
    (∀ (cc : List Chunk) (t a : ℚ), cc ≠ [] →
      calculateRetrievalPrecision cc t a =
        ((cc.countP (fun c => decide (c.similarity > 1 / 2)) : ℚ)) / cc.length) ∧
    (∀ t a : ℚ, calculateRetrievalPrecision [] t a = 0) := by
  refine ⟨fun cc t1 a1 t2 a2 => rfl, fun cc t a h => ?_, fun t a => rfl⟩
  unfold calculateRetrievalPrecision
  rw [if_neg (by simpa [List.length_eq_zero] using h), List.countP_eq_length_filter]

/-- Witness for C4 at a concrete singleton chunk list. -/
theorem claim_C4_witness :
    calculateRetrievalPrecision [preciseChunk] 0 0 =
      (([preciseChunk].countP (fun c => decide (c.similarity > 1 / 2)) : ℚ)) /
        ([preciseChunk] : List Chunk).length :=
  claim_C4.2.1 [preciseChunk] 0 0 (List.cons_ne_nil _ _)

/-- Claim C9: on a non-empty chunk list, citation coverage is the number of
distinct sources in `sources` divided by the number of distinct sources
among the chunks, with no clamping: when the former exceeds the latter the
coverage exceeds 1. -/
theorem claim_C9 : ∀ (sources : List SourceRef) (cc : List Chunk), cc ≠ [] →
    calculateCitationCoverage sources cc =
      ((sources.map SourceRef.source).dedup.length : ℚ) /
        ((cc.map Chunk.source).dedup.length : ℚ) ∧
    ((cc.map Chunk.source).dedup.length < (sources.map SourceRef.source).dedup.length →
      1 < calculateCitationCoverage sources cc) := by
  intro ss cc h
  have hlen : ¬cc.length = 0 := by simpa [List.length_eq_zero] using h
  have heq : calculateCitationCoverage ss cc =
      ((ss.map SourceRef.source).dedup.length : ℚ) /
        ((cc.map Chunk.source).dedup.length : ℚ) := by
    unfold calculateCitationCoverage
    rw [if_neg hlen]
  refine ⟨heq, fun hgt => ?_⟩
  have hb : 0 < (cc.map Chunk.source).dedup.length := by
    refine List.length_pos.mpr ((List.dedup_eq_nil _).not.mpr ?_)
    simp [h]
  have hbq : (0 : ℚ) < ((cc.map Chunk.source).dedup.length : ℚ) := by exact_mod_cast hb
  rw [heq, one_lt_div hbq]
  exact_mod_cast hgt

/-- Witness for C9: two cited sources against one context source give a
coverage of 2, which exceeds 1. -/
theorem claim_C9_witness :
    calculateCitationCoverage [⟨"paperA", 1⟩, ⟨"paperB", 1⟩] [⟨"text", "paperA", 1⟩] =
      ((([⟨"paperA", 1⟩, ⟨"paperB", 1⟩] : List SourceRef).map SourceRef.source).dedup.length : ℚ) /
        ((([⟨"text", "paperA", 1⟩] : List Chunk).map Chunk.source).dedup.length : ℚ) ∧
    ((([⟨"text", "paperA", 1⟩] : List Chunk).map Chunk.source).dedup.length <
        (([⟨"paperA", 1⟩, ⟨"paperB", 1⟩] : List SourceRef).map SourceRef.source).dedup.length →
      1 < calculateCitationCoverage [⟨"paperA", 1⟩, ⟨"paperB", 1⟩] [⟨"text", "paperA", 1⟩]) :=
  claim_C9 [⟨"paperA", 1⟩, ⟨"paperB", 1⟩] [⟨"text", "paperA", 1⟩] (List.cons_ne_nil _ _)

/-- Claim C10: with context present but no response sentence of trimmed
length greater than 20, `calculateGrounding` returns 0 and
`detectHallucination` also returns 0 (not 1). -/
theorem claim_C10 : ∀ (response : String) (cc : List Chunk), cc ≠ [] →
    ((splitRuns isSentenceSep response.data).all
      (fun s => decide ((trimChars s).length ≤ 20)) = true) →
    calculateGrounding response cc = 0 ∧ detectHallucination response cc = 0 := by
  intro r cc hcc hall
  have hlen : ¬cc.length = 0 := by simpa [List.length_eq_zero] using hcc
  have hfil : (splitRuns isSentenceSep r.data).filter
      (fun s => decide ((trimChars s).length > 20)) = [] := by
    rw [List.filter_eq_nil_iff]
    intro s hs
    have h20 := List.all_eq_true.mp hall s hs
    simp only [decide_eq_true_eq] at h20 ⊢
    omega
  constructor
  · simp only [calculateGrounding]
    rw [if_neg hlen, hfil]
    simp
  · simp only [detectHallucination]
    rw [if_neg hlen, hfil]
    simp

/-- Witness for C10: a two-sentence response of short sentences against one
context chunk. -/
theorem claim_C10_witness :
    calculateGrounding "Too short. Tiny." [⟨"ctx", "s", 1⟩] = 0 ∧
    detectHallucination "Too short. Tiny." [⟨"ctx", "s", 1⟩] = 0 :=
  claim_C10 "Too short. Tiny." [⟨"ctx", "s", 1⟩] (List.cons_ne_nil _ _) (by decide)

/-- The `forEach`-with-counter idiom (accumulating in `ℚ`, as JS numbers do)
equals `countP`. -/
theorem foldl_count_eq_countP {α : Type} (p : α → Bool) :
    ∀ (l : List α) (q : ℚ),
      l.foldl (fun acc s => if p s then acc + 1 else acc) q = q + (l.countP p : ℚ) := by
  intro l
  induction l with
  | nil => intro q; simp
  | cons a l ih =>
    intro q
    by_cases h : p a <;> simp [List.countP_cons, h, ih] <;> push_cast <;> ring

/-- A match rate `m / w` is below 20% (with the JS `NaN` comparison being
false for `w = 0`) exactly when `5 * m < w`. -/
theorem rate_lt_iff (m w : ℕ) :
    (w ≠ 0 ∧ (m : ℚ) / (w : ℚ) < 1 / 5) ↔ 5 * m < w := by
  rcases Nat.eq_zero_or_pos w with h | h
  · subst h; simp
  · have hw : (0 : ℚ) < (w : ℚ) := by exact_mod_cast h
    have h5 : (0 : ℚ) < 5 := by norm_num
    rw [div_lt_div_iff hw h5]
    constructor
    · rintro ⟨-, hlt⟩
      have hcast : ((5 * m : ℕ) : ℚ) < ((w : ℕ) : ℚ) := by push_cast; linarith
      exact_mod_cast hcast
    · intro hlt
      refine ⟨by omega, ?_⟩
      have hcast : ((5 * m : ℕ) : ℚ) < ((w : ℕ) : ℚ) := by exact_mod_cast hlt
      push_cast at hcast
      linarith

/-- The code's per-sentence hallucination test agrees with the spec's
"match rate below 20%" reading. -/
theorem hallucinatedSentence_eq (ctx s : List Char) :
    hallucinatedSentence ctx s = sentenceLowMatchRate ctx s := by
  simp only [hallucinatedSentence, sentenceLowMatchRate]
  rw [decide_eq_decide]
  exact rate_lt_iff _ _

/-- Claim C3: `detectHallucination` computes exactly the spec's hallucination
score — for non-empty context the fraction of long response sentences whose
content-word match rate is below 20%, and `1` for empty context. -/
theorem claim_C3 :
    (∀ (response : String) (cc : List Chunk),
      detectHallucination response cc = hallucinationScoreSpec response cc) ∧
    (∀ response : String, detectHallucination response [] = 1) := by
  have hfun : ∀ C : List Char, hallucinatedSentence C = sentenceLowMatchRate C :=
    fun C => funext (hallucinatedSentence_eq C)
  refine ⟨?_, fun r => rfl⟩
  intro r cc
  simp only [detectHallucination, hallucinationScoreSpec]
  by_cases h : cc.length = 0
  · rw [if_pos h, if_pos h]
  · rw [if_neg h, if_neg h, foldl_count_eq_countP, hfun]
    split_ifs with hL
    · simp
    · have h0 : (List.filter (fun s => decide ((trimChars s).length > 20))
          (splitRuns isSentenceSep r.data)) = [] := by
        rw [← List.length_eq_zero]
        omega
      rw [h0]
      simp

/-- The seen-set loop of the code counts exactly the sentences that occurred
among the earlier (normalized) sentences. -/
theorem repetitionGo_eq :
    ∀ (l seen earlier : List (List Char)),
      (∀ a, a ∈ seen ↔ a ∈ earlier) →
      repetitionGo seen l =
        countRepeatedSpec earlier (l.map (fun s => (trimChars s).map Char.toLower)) := by
  intro l
  induction l with
  | nil => intro seen earlier _; simp [repetitionGo, countRepeatedSpec]
  | cons s rest ih =>
    intro seen earlier hmem
    simp only [repetitionGo, countRepeatedSpec, List.map_cons]
    have hmemnext : ∀ a, a ∈ seen.insert ((trimChars s).map Char.toLower) ↔
        a ∈ earlier ++ [(trimChars s).map Char.toLower] := by
      intro a
      simp only [List.mem_insert_iff, List.mem_append, List.mem_singleton, hmem a]
      tauto
    rw [ih _ _ hmemnext]
    congr 1
    simp [hmem _]

/-- Evaluation helper for `calculateRepetition` on a concrete response. -/
theorem calculateRepetition_eval (text : String) (c n : ℕ)
    (hc : repetitionGo [] (List.filter (fun s => decide ((trimChars s).length > 0))
      (splitRuns isSentenceSep text.data)) = c)
    (hn : (List.filter (fun s => decide ((trimChars s).length > 0))
      (splitRuns isSentenceSep text.data)).length = n)
    (h2 : 2 ≤ n) :
    calculateRepetition text = (c : ℚ) / (n : ℚ) := by
  simp only [calculateRepetition]
  rw [hc, hn, if_neg (by omega)]

/-- Claim C5: the repetition score is the fraction of sentences already seen
among the earlier sentences (0 with fewer than 2 sentences), and the
response "The sky is blue. The sky is blue." scores 0.5. -/
theorem claim_C5 :
    (∀ text : String, calculateRepetition text = repetitionScoreSpec text) ∧
    calculateRepetition "The sky is blue. The sky is blue." = 1 / 2 := by
  constructor
  · intro text
    simp only [calculateRepetition, repetitionScoreSpec, List.length_map]
    by_cases h : (List.filter (fun s => decide ((trimChars s).length > 0))
        (splitRuns isSentenceSep text.data)).length < 2
    · rw [if_pos h, if_pos h]
    · rw [if_neg h, if_neg h, repetitionGo_eq _ [] [] (by simp)]
  · rw [calculateRepetition_eval _ 1 2 (by decide) (by decide) (by omega)]
    norm_num

/-- Claim C6: `classifyQuery` checks the category patterns in the fixed
order question, summary, comparison, generation and returns the first
match, falling back to `"other"`; a query matching both an interrogative
word and comparison vocabulary is a `"question"`, and the example query
classifies as `"comparison"`. -/
theorem claim_C6 :
    (∀ q : String, matchesAny q questionWords = true →
      matchesAny q comparisonWords = true → classifyQuery q = "question") ∧
    (∀ q : String, matchesAny q questionWords = true → classifyQuery q = "question") ∧
    (∀ q : String, matchesAny q questionWords = false → matchesAny q summaryWords = true →
      classifyQuery q = "summary") ∧
    (∀ q : String, matchesAny q questionWords = false → matchesAny q summaryWords = false →
      matchesAny q comparisonWords = true → classifyQuery q = "comparison") ∧
    (∀ q : String, matchesAny q questionWords = false → matchesAny q summaryWords = false →
      matchesAny q comparisonWords = false → matchesAny q generationWords = true →
      classifyQuery q = "generation") ∧
    (∀ q : String, matchesAny q questionWords = false → matchesAny q summaryWords = false →
      matchesAny q comparisonWords = false → matchesAny q generationWords = false →
      classifyQuery q = "other") ∧
    classifyQuery "Compare the methodologies used in paper A and paper B" = "comparison" := by
  refine ⟨?_, ?_, ?_, ?_, ?_, ?_, ?_⟩
  · intro q h1 _; simp [classifyQuery, h1]
  · intro q h1; simp [classifyQuery, h1]
  · intro q h1 h2; simp [classifyQuery, h1, h2]
  · intro q h1 h2 h3; simp [classifyQuery, h1, h2, h3]
  · intro q h1 h2 h3 h4; simp [classifyQuery, h1, h2, h3, h4]
  · intro q h1 h2 h3 h4; simp [classifyQuery, h1, h2, h3, h4]
  · decide

/-- Witness for C6: a query containing both "what" and "difference"
classifies as a question. -/
theorem claim_C6_witness :
    matchesAny "What is the difference between A and B" questionWords = true ∧
    matchesAny "What is the difference between A and B" comparisonWords = true ∧
    classifyQuery "What is the difference between A and B" = "question" :=
  ⟨by decide, by decide,
    claim_C6.1 "What is the difference between A and B" (by decide) (by decide)⟩

/-- Claim C7: for a non-empty generation-time sequence, the 95th-percentile
aggregate is the element at index `max 0 (⌈95/100 · n⌉ - 1)` of the sequence
sorted ascending (nearest-rank method). -/
theorem claim_C7 : ∀ m : Metrics, m.totalGenTime ≠ [] →
    List.Sorted (· ≤ ·) (sortAsc m.totalGenTime) ∧
    (sortAsc m.totalGenTime).Perm m.totalGenTime ∧
    ∃ i : Fin (sortAsc m.totalGenTime).length,
      (i : ℕ) = (max 0 (⌈(95 : ℚ) / 100 * (m.totalGenTime.length : ℚ)⌉ - 1)).toNat ∧
      (getAggregatedStats m).performance.p95TotalGenTime =
        (sortAsc m.totalGenTime).get i := by
  intro m hne
  have hlen0 : m.totalGenTime.length ≠ 0 := by simpa [List.length_eq_zero] using hne
  have hsort : (sortAsc m.totalGenTime).length = m.totalGenTime.length :=
    List.length_insertionSort _ _
  have hnq : (0 : ℚ) < (m.totalGenTime.length : ℚ) := by
    exact_mod_cast Nat.pos_of_ne_zero hlen0
  have hk1 : (0 : ℤ) < ⌈(95 : ℚ) / 100 * (m.totalGenTime.length : ℚ)⌉ := by
    refine Int.lt_ceil.mpr ?_
    push_cast
    nlinarith
  have hkn : ⌈(95 : ℚ) / 100 * (m.totalGenTime.length : ℚ)⌉ ≤ (m.totalGenTime.length : ℤ) := by
    refine Int.ceil_le.mpr ?_
    push_cast
    nlinarith
  have hidx : (max 0 (⌈(95 : ℚ) / 100 * (m.totalGenTime.length : ℚ)⌉ - 1)).toNat <
      (sortAsc m.totalGenTime).length := by
    rw [hsort]
    omega
  refine ⟨List.sorted_insertionSort _ _, List.perm_insertionSort _ _, ⟨_, hidx⟩, rfl, ?_⟩
  show percentile m.totalGenTime 95 = _
  simp only [percentile]
  rw [if_neg hlen0]
  have hceil : ((sortAsc m.totalGenTime).length : ℚ) = (m.totalGenTime.length : ℚ) := by
    exact_mod_cast hsort
  rw [hceil, List.getD_eq_getElem _ _ hidx]
  simp [List.get_eq_getElem]

/-- Metrics state with one tracked generation time, used to witness C7. -/
def genTimeMetrics : Metrics := { initialMetrics with totalGenTime := [5] }

/-- Witness for C7 at a one-element generation-time sequence. -/
theorem claim_C7_witness :
    List.Sorted (· ≤ ·) (sortAsc genTimeMetrics.totalGenTime) ∧
    (sortAsc genTimeMetrics.totalGenTime).Perm genTimeMetrics.totalGenTime ∧
    ∃ i : Fin (sortAsc genTimeMetrics.totalGenTime).length,
      (i : ℕ) = (max 0 (⌈(95 : ℚ) / 100 * (genTimeMetrics.totalGenTime.length : ℚ)⌉ - 1)).toNat ∧
      (getAggregatedStats genTimeMetrics).performance.p95TotalGenTime =
        (sortAsc genTimeMetrics.totalGenTime).get i :=
  claim_C7 genTimeMetrics (by simp [genTimeMetrics])

/-- `classifyQuery` always returns one of the five category strings. -/
theorem classifyQuery_cases (q : String) :
    classifyQuery q = "question" ∨ classifyQuery q = "summary" ∨
    classifyQuery q = "comparison" ∨ classifyQuery q = "generation" ∨
    classifyQuery q = "other" := by
  unfold classifyQuery
  split_ifs <;> simp

/-- One `trackQuery` call adds exactly 1 to the sum of the `queryTypes`
counters. -/
theorem sumQueryTypes_trackQuery (m : Metrics) (d : QueryRecord) :
    sumQueryTypes (trackQuery m d).1.queryTypes = sumQueryTypes m.queryTypes + 1 := by
  rcases classifyQuery_cases d.query with h | h | h | h | h <;>
    simp [trackQuery, bumpQueryType, sumQueryTypes, h] <;> omega

/-- Iterating a `Metrics` observable that grows by exactly 1 per
`trackQuery` call. -/
theorem trackAll_count (g : Metrics → ℕ)
    (hg : ∀ m d, g ((trackQuery m d).1) = g m + 1) :
    ∀ (qs : List QueryRecord) (m : Metrics), g (trackAll m qs) = g m + qs.length := by
  intro qs
  induction qs with
  | nil => intro m; simp [trackAll]
  | cons d rest ih =>
    intro m
    have hstep : trackAll m (d :: rest) = trackAll ((trackQuery m d).1) rest := by
      simp [trackAll]
    rw [hstep, ih, hg]
    simp [List.length_cons]
    omega

/-- Claim C8: every `trackQuery` call appends exactly one element to each of
the fourteen per-query metric sequences and increments exactly one
`queryTypes` counter; after tracking a whole list of records all fourteen
sequences have the list's length and the counters sum to it. -/
theorem claim_C8 :
    (∀ (m : Metrics) (d : QueryRecord),
      ((trackQuery m d).1.responseLengths.length = m.responseLengths.length + 1 ∧
       (trackQuery m d).1.diversityDistinct1.length = m.diversityDistinct1.length + 1 ∧
       (trackQuery m d).1.diversityDistinct2.length = m.diversityDistinct2.length + 1 ∧
       (trackQuery m d).1.repetitionScores.length = m.repetitionScores.length + 1 ∧
       (trackQuery m d).1.contextUtilization.length = m.contextUtilization.length + 1 ∧
       (trackQuery m d).1.answerGrounding.length = m.answerGrounding.length + 1 ∧
       (trackQuery m d).1.citationCoverage.length = m.citationCoverage.length + 1 ∧
       (trackQuery m d).1.retrievalPrecision.length = m.retrievalPrecision.length + 1 ∧
       (trackQuery m d).1.totalGenTime.length = m.totalGenTime.length + 1 ∧
       (trackQuery m d).1.throughput.length = m.throughput.length + 1 ∧
       (trackQuery m d).1.queryComplexity.length = m.queryComplexity.length + 1 ∧
       (trackQuery m d).1.hallucinationScores.length = m.hallucinationScores.length + 1 ∧
       (trackQuery m d).1.completenessScores.length = m.completenessScores.length + 1 ∧
       (trackQuery m d).1.sourceDiversity.length = m.sourceDiversity.length + 1) ∧
      ((trackQuery m d).1.queryTypes.question =
        m.queryTypes.question + (if classifyQuery d.query = "question" then 1 else 0) ∧
       (trackQuery m d).1.queryTypes.summary =
        m.queryTypes.summary + (if classifyQuery d.query = "summary" then 1 else 0) ∧
       (trackQuery m d).1.queryTypes.comparison =
        m.queryTypes.comparison + (if classifyQuery d.query = "comparison" then 1 else 0) ∧
       (trackQuery m d).1.queryTypes.generation =
        m.queryTypes.generation + (if classifyQuery d.query = "generation" then 1 else 0) ∧
       (trackQuery m d).1.queryTypes.other =
        m.queryTypes.other + (if classifyQuery d.query = "other" then 1 else 0)) ∧
      sumQueryTypes (trackQuery m d).1.queryTypes = sumQueryTypes m.queryTypes + 1) ∧
    (∀ qs : List QueryRecord,
      (trackAll initialMetrics qs).responseLengths.length = qs.length ∧
      (trackAll initialMetrics qs).diversityDistinct1.length = qs.length ∧
      (trackAll initialMetrics qs).diversityDistinct2.length = qs.length ∧
      (trackAll initialMetrics qs).repetitionScores.length = qs.length ∧
      (trackAll initialMetrics qs).contextUtilization.length = qs.length ∧
      (trackAll initialMetrics qs).answerGrounding.length = qs.length ∧
      (trackAll initialMetrics qs).citationCoverage.length = qs.length ∧
      (trackAll initialMetrics qs).retrievalPrecision.length = qs.length ∧
      (trackAll initialMetrics qs).totalGenTime.length = qs.length ∧
      (trackAll initialMetrics qs).throughput.length = qs.length ∧
      (trackAll initialMetrics qs).queryComplexity.length = qs.length ∧
      (trackAll initialMetrics qs).hallucinationScores.length = qs.length ∧
      (trackAll initialMetrics qs).completenessScores.length = qs.length ∧
      (trackAll initialMetrics qs).sourceDiversity.length = qs.length ∧
      sumQueryTypes (trackAll initialMetrics qs).queryTypes = qs.length) := by
  constructor
  · intro m d
    refine ⟨?_, ?_, sumQueryTypes_trackQuery m d⟩
    · refine ⟨?_, ?_, ?_, ?_, ?_, ?_, ?_, ?_, ?_, ?_, ?_, ?_, ?_, ?_⟩ <;>
        simp [trackQuery]
    · rcases classifyQuery_cases d.query with h | h | h | h | h <;>
        simp [trackQuery, bumpQueryType, h]
  · intro qs
    refine ⟨?_, ?_, ?_, ?_, ?_, ?_, ?_, ?_, ?_, ?_, ?_, ?_, ?_, ?_, ?_⟩
    · simpa [initialMetrics] using
        trackAll_count (fun m => m.responseLengths.length)
          (fun m d => by simp [trackQuery]) qs initialMetrics
    · simpa [initialMetrics] using
        trackAll_count (fun m => m.diversityDistinct1.length)
          (fun m d => by simp [trackQuery]) qs initialMetrics
    · simpa [initialMetrics] using
        trackAll_count (fun m => m.diversityDistinct2.length)
          (fun m d => by simp [trackQuery]) qs initialMetrics
    · simpa [initialMetrics] using
        trackAll_count (fun m => m.repetitionScores.length)
          (fun m d => by simp [trackQuery]) qs initialMetrics
    · simpa [initialMetrics] using
        trackAll_count (fun m => m.contextUtilization.length)
          (fun m d => by simp [trackQuery]) qs initialMetrics
    · simpa [initialMetrics] using
        trackAll_count (fun m => m.answerGrounding.length)
          (fun m d => by simp [trackQuery]) qs initialMetrics
    · simpa [initialMetrics] using
        trackAll_count (fun m => m.citationCoverage.length)
          (fun m d => by simp [trackQuery]) qs initialMetrics
    · simpa [initialMetrics] using
        trackAll_count (fun m => m.retrievalPrecision.length)
          (fun m d => by simp [trackQuery]) qs initialMetrics
    · simpa [initialMetrics] using
        trackAll_count (fun m => m.totalGenTime.length)
          (fun m d => by simp [trackQuery]) qs initialMetrics
    · simpa [initialMetrics] using
        trackAll_count (fun m => m.throughput.length)
          (fun m d => by simp [trackQuery]) qs initialMetrics
    · simpa [initialMetrics] using
        trackAll_count (fun m => m.queryComplexity.length)
          (fun m d => by simp [trackQuery]) qs initialMetrics
    · simpa [initialMetrics] using
        trackAll_count (fun m => m.hallucinationScores.length)
          (fun m d => by simp [trackQuery]) qs initialMetrics
    · simpa [initialMetrics] using
        trackAll_count (fun m => m.completenessScores.length)
          (fun m d => by simp [trackQuery]) qs initialMetrics
    · simpa [initialMetrics] using
        trackAll_count (fun m => m.sourceDiversity.length)
          (fun m d => by simp [trackQuery]) qs initialMetrics
    · simpa [initialMetrics, sumQueryTypes] using
        trackAll_count (fun m => sumQueryTypes m.queryTypes)
          (fun m d => sumQueryTypes_trackQuery m d) qs initialMetrics

end AICGLLM
